import Mathlib

/-!
Shallow embedding of the Quest Chronicles game core
(character_manager.py, inventory_system.py, quest_handler.py,
combat_system.py).  Python dicts holding a fixed set of keys are
modelled as Lean structures; keys that the code treats as optional
(`inventory`, `equipped_weapon`, `equipped_armor`, `_last_ability`)
are `Option` fields.  Python in-place mutation together with raised
exceptions is modelled by state passing: every mutating operation
returns the (possibly partially mutated) record together with an
`Except` value, exactly mirroring the state the caller's dict is in
when the function returns or raises.  Machine integers are `Int`
(Python ints are unbounded); Python `//` is `Int.fdiv` (floor).
-/

namespace QuestChronicles

/-- Exception kinds raised by the modules under verification.  The
concrete classes live in `custom_exceptions.py`, which is imported by
every module.  The constructor `questAlreadyActive` is modelled from
the spec: the spec's quest-graph contract (§4.3) names a
`QuestAlreadyActiveError`; the quest handler itself never imports or
raises it.  `keyError` and `valueError` model the builtin Python
exceptions reachable from the embedded code. -/
inductive Err where
  | inventoryFull
  | itemNotFound
  | insufficientResources
  | invalidItemType
  | questNotFound
  | questRequirementsNotMet
  | questAlreadyCompleted
  | questNotActive
  | insufficientLevel
  | questAlreadyActive
  | characterDead
  | invalidTarget
  | combatNotActive
  | abilityOnCooldown
  | valueError
  | keyError
deriving DecidableEq, Repr

/-- Equality of `Except` results is decidable componentwise; needed
so concrete runs of the embedded operations can be settled by
`decide`. -/
instance {ε α : Type} [DecidableEq ε] [DecidableEq α] :
    DecidableEq (Except ε α) := fun x y =>
  match x, y with
  | .ok a, .ok b => decidable_of_iff (a = b) (by simp)
  | .ok _, .error _ => .isFalse (by simp)
  | .error _, .ok _ => .isFalse (by simp)
  | .error e, .error f => decidable_of_iff (e = f) (by simp)

/-- Item record from the item catalog: `type`, `effect` (a raw
`"stat:value"` string, parsed on every use as in the source), `cost`. -/
structure Item where
  type : String
  effect : String
  cost : Int
deriving DecidableEq, Repr

/-- Quest record from the quest catalog (fields the core logic reads;
`title`/`description` are display-only and omitted).  `prerequisite`
uses the source's `"NONE"` sentinel string. -/
structure Quest where
  reward_xp : Int
  reward_gold : Int
  required_level : Int
  prerequisite : String
deriving DecidableEq, Repr

/-- Class archetype entry of `CHARACTER_CLASSES` in
character_manager.py; `mana` is present only for caster classes. -/
structure ClassDef where
  strength : Int
  defense : Int
  health : Int
  mana : Option Int
deriving DecidableEq, Repr

/-- `CHARACTER_CLASSES` from character_manager.py. -/
def CHARACTER_CLASSES : List (String × ClassDef) :=
  [("Warrior", ⟨10, 8, 100, none⟩),
   ("Mage", ⟨4, 5, 70, some 100⟩),
   ("Rogue", ⟨7, 6, 80, none⟩),
   ("Cleric", ⟨5, 6, 80, some 80⟩)]

/-- The mutable character record (a Python dict in the source).  The
always-written keys are plain fields; `inventory` and the two equip
slots are `Option` because parts of the code tolerate their absence
(`character.get("inventory", [])`, falsy checks on the slots).
`item_data` models the `character["item_data"]` catalog that
unequip_weapon/unequip_armor read; `extra` models dynamically created
stat keys written by `apply_stat_effect` for stat names that are not
one of the fixed fields. -/
structure Character where
  name : String
  className : String
  level : Int
  experience : Int
  xp : Int
  gold : Int
  strength : Int
  defense : Int
  health : Int
  max_health : Int
  magic : Int
  mana : Int
  inventory : Option (List String)
  equipped_weapon : Option String
  equipped_armor : Option String
  active_quests : List String
  completed_quests : List String
  item_data : List (String × Item)
  in_battle : Bool
  last_ability : Option String
  extra : List (String × Int)
deriving DecidableEq, Repr

-- ===========================================================================
-- quest_handler.py
-- ===========================================================================

/-- `accept_quest(character, quest_id, quest_data_dict)`.  Returns the
character state at exit together with the result; every `raise`
happens before any mutation, so each error branch returns the input
record unchanged, as in the source. -/
def accept_quest (c : Character) (quest_id : String)
    (quest_data_dict : List (String × Quest)) :
    Character × Except Err Bool :=
  match quest_data_dict.lookup quest_id with
  | none => (c, .error .questNotFound)
  | some quest =>
    if quest_id ∈ c.completed_quests then
      (c, .error .questAlreadyCompleted)
    else if quest_id ∈ c.active_quests then
      (c, .error .questRequirementsNotMet)
    else if c.level < quest.required_level then
      (c, .error .insufficientLevel)
    else if quest.prerequisite ≠ "NONE" ∧
        quest.prerequisite ∉ c.completed_quests then
      (c, .error .questRequirementsNotMet)
    else
      ({c with active_quests := c.active_quests ++ [quest_id]}, .ok true)

/-- `complete_quest(character, quest_id, quest_data_dict)`.  Removes
the first occurrence from `active_quests` (Python `list.remove`),
appends to `completed_quests`, and adds the rewards directly to
`experience` and `gold`.  Returns the `{"xp": ..., "gold": ...}`
reward descriptor as a pair. -/
def complete_quest (c : Character) (quest_id : String)
    (quest_data_dict : List (String × Quest)) :
    Character × Except Err (Int × Int) :=
  match quest_data_dict.lookup quest_id with
  | none => (c, .error .questNotFound)
  | some quest =>
    if quest_id ∉ c.active_quests then
      (c, .error .questNotActive)
    else
      ({c with
          active_quests := c.active_quests.erase quest_id,
          completed_quests := c.completed_quests ++ [quest_id],
          experience := c.experience + quest.reward_xp,
          gold := c.gold + quest.reward_gold},
       .ok (quest.reward_xp, quest.reward_gold))

/-- `abandon_quest(character, quest_id)`. -/
def abandon_quest (c : Character) (quest_id : String) :
    Character × Except Err Bool :=
  if quest_id ∉ c.active_quests then
    (c, .error .questNotActive)
  else
    ({c with active_quests := c.active_quests.erase quest_id}, .ok true)

/-- Result of the prerequisite-chain walk: a normal return, a raised
exception, or `timeout`, meaning the `while True` loop has not exited
within the given number of iterations. -/
inductive ChainRes where
  | ok (chain : List String)
  | err (e : Err)
  | timeout
deriving DecidableEq, Repr

/-- The `while True` body of `get_quest_prerequisite_chain`, indexed
by the number of loop iterations still allowed.  Each iteration
checks the current id, appends it to the accumulated chain, and
either breaks on the `"NONE"` sentinel (returning the reversed chain)
or follows the prerequisite link. -/
def chainLoop (quest_data_dict : List (String × Quest)) :
    Nat → String → List String → ChainRes
  | 0, _, _ => .timeout
  | fuel + 1, current, chain =>
    match quest_data_dict.lookup current with
    | none => .err .questNotFound
    | some q =>
      if q.prerequisite = "NONE" then
        .ok (chain ++ [current]).reverse
      else
        chainLoop quest_data_dict fuel q.prerequisite (chain ++ [current])

/-- `get_quest_prerequisite_chain(quest_id, quest_data_dict)`; the
`fuel` argument bounds the number of loop iterations observed
(`ChainRes.timeout` means the source loop is still running after
`fuel` iterations). -/
def get_quest_prerequisite_chain (quest_id : String)
    (quest_data_dict : List (String × Quest)) (fuel : Nat) : ChainRes :=
  match quest_data_dict.lookup quest_id with
  | none => .err .questNotFound
  | some _ => chainLoop quest_data_dict fuel quest_id []

-- ===========================================================================
-- character_manager.py
-- ===========================================================================

/-- `is_character_dead(character)`. -/
def is_character_dead (c : Character) : Bool :=
  c.health ≤ 0

/-- Whether `CHARACTER_CLASSES.get(class_name, {})` contains the key
`"mana"` — the caster test inside the level-up loop. -/
def classHasMana (class_name : String) : Bool :=
  match CHARACTER_CLASSES.lookup class_name with
  | some d => d.mana.isSome
  | none => false

/-- One-or-more executions of the level-up `while` loop body of
`gain_experience`, applied as long as `xp ≥ level * 100`, indexed by
a bound on the number of iterations.  The body subtracts the
threshold, keeps `experience` in sync with `xp`, increments the
level, grows `max_health` and `strength`, buffs `magic`/`mana` for
caster classes, and restores `health` to full. -/
def levelUpLoop : Nat → Character → Character
  | 0, c => c
  | fuel + 1, c =>
    if c.xp ≥ c.level * 100 then
      let threshold := c.level * 100
      let c := {c with xp := c.xp - threshold}
      let c := {c with experience := c.xp}
      let c := {c with level := c.level + 1}
      let c := {c with max_health := c.max_health + 10}
      let c := {c with strength := c.strength + 2}
      let c :=
        if classHasMana c.className then
          {c with magic := c.magic + 5, mana := c.mana + 5}
        else c
      let c := {c with health := c.max_health}
      levelUpLoop fuel c
    else c

/-- Iteration bound for `levelUpLoop`, always at least the number of
iterations the source loop performs: once `level ≥ 1`, each iteration
removes `level * 100 ≥ 100` xp, and the loop spends at most
`(1 - level)` iterations getting the level up to 1, adding fewer than
`50 * (1 - level)^2 * 100` xp along the way. -/
def gainFuel (c : Character) : Nat :=
  c.xp.toNat + 50 * (1 - c.level).toNat * (1 - c.level).toNat +
    (1 - c.level).toNat + 2

/-- `gain_experience(character, xp_amount)`: raises
`CharacterDeadError` when dead, otherwise adds the amount to `xp`,
mirrors it into `experience`, runs the level-up loop, re-syncs
`experience`, and returns `character["xp"]` (the leftover experience
toward the next level).  The `"xp" not in character` /
`"experience" not in character` compatibility shims are identities
here because both fields always exist on the record. -/
def gain_experience (c : Character) (xp_amount : Int) :
    Character × Except Err Int :=
  if is_character_dead c then
    (c, .error .characterDead)
  else
    let c := {c with xp := c.xp + xp_amount}
    let c := {c with experience := c.xp}
    let c := levelUpLoop (gainFuel c) c
    let c := {c with experience := c.xp}
    (c, .ok c.xp)

/-- `add_gold(character, amount)`: raises `ValueError` when the new
total would be negative, otherwise stores and returns it. -/
def add_gold (c : Character) (amount : Int) :
    Character × Except Err Int :=
  let new_total := c.gold + amount
  if new_total < 0 then
    (c, .error .valueError)
  else
    ({c with gold := new_total}, .ok new_total)

-- ===========================================================================
-- inventory_system.py
-- ===========================================================================

/-- `MAX_INVENTORY_SIZE` from inventory_system.py. -/
def MAX_INVENTORY_SIZE : Nat := 20

/-- `add_item_to_inventory(character, item_id)`.  The source binds
`inventory = character.get("inventory", [])`: when the key exists the
local name aliases the stored list, so the `append` mutates the
record; when the key is absent the `append` lands in a fresh list
that is dropped on return.  Both behaviours are reproduced here. -/
def add_item_to_inventory (c : Character) (item_id : String) :
    Character × Except Err Bool :=
  let inventory := c.inventory.getD []
  if inventory.length ≥ MAX_INVENTORY_SIZE then
    (c, .error .inventoryFull)
  else
    match c.inventory with
    | some inv => ({c with inventory := some (inv ++ [item_id])}, .ok true)
    | none => (c, .ok true)

/-- `get_inventory_space_remaining(character)` (Python int
subtraction, so the result may be negative). -/
def get_inventory_space_remaining (c : Character) : Int :=
  (MAX_INVENTORY_SIZE : Int) - (c.inventory.getD []).length

/-- Python `str.split(sep)` for a one-character separator, on the
character list of a string: every occurrence of `sep` starts a new
(possibly empty) part. -/
def splitOnChar (sep : Char) : List Char → List (List Char)
  | [] => [[]]
  | c :: rest =>
    let r := splitOnChar sep rest
    if c = sep then [] :: r
    else
      match r with
      | [] => [[c]]
      | w :: ws => (c :: w) :: ws

/-- An all-digit character run read as a number (helper for
`pyInt`). -/
def parseDigits (ds : List Char) : Option Nat :=
  if ds = [] then none
  else if ds.all Char.isDigit then
    some (ds.foldl (fun n c => n * 10 + (c.toNat - 48)) 0)
  else none

/-- Python `int(str)` on the effect values: an optional sign followed
by digits (the surrounding-whitespace tolerance of `int` is not
exercised by any catalog value and is not modelled). -/
def pyInt : List Char → Option Int
  | '-' :: rest => (parseDigits rest).map (fun n => -(n : Int))
  | '+' :: rest => (parseDigits rest).map (fun n => (n : Int))
  | s => (parseDigits s).map (fun n => (n : Int))

/-- `parse_item_effect(effect_string)`: splits on `":"`, requires
exactly two parts, and converts the second with `int(...)`; any
failure raises `InvalidItemTypeError` (the bare `except` in the
source). -/
def parse_item_effect (effect_string : String) :
    Except Err (String × Int) :=
  match splitOnChar ':' effect_string.data with
  | [stat, value] =>
    match pyInt value with
    | some n => .ok (String.mk stat, n)
    | none => .error .invalidItemType
  | _ => .error .invalidItemType

/-- Helper for `apply_stat_effect` on dynamically named stats: the
Python `character[stat_name] = 0` initialisation followed by
`+= value`, on the association list of extra keys. -/
def assocSet : List (String × Int) → String → Int → List (String × Int)
  | [], k, v => [(k, v)]
  | (k', v') :: rest, k, v =>
    if k' = k then (k, v) :: rest else (k', v') :: assocSet rest k v

/-- `apply_stat_effect(character, stat_name, value)`: adds `value` to
the named stat, clamping `health` to `max_health`.  The fixed record
fields model the dict keys that are always present; any other stat
name goes through the `extra` association list (initialised to 0 when
missing, as in the source). -/
def apply_stat_effect (c : Character) (stat_name : String) (value : Int) :
    Character :=
  if stat_name = "health" then
    let c := {c with health := c.health + value}
    {c with health := min c.health c.max_health}
  else if stat_name = "strength" then {c with strength := c.strength + value}
  else if stat_name = "defense" then {c with defense := c.defense + value}
  else if stat_name = "magic" then {c with magic := c.magic + value}
  else if stat_name = "mana" then {c with mana := c.mana + value}
  else if stat_name = "gold" then {c with gold := c.gold + value}
  else if stat_name = "max_health" then
    {c with max_health := c.max_health + value}
  else if stat_name = "experience" then
    {c with experience := c.experience + value}
  else if stat_name = "xp" then {c with xp := c.xp + value}
  else if stat_name = "level" then {c with level := c.level + value}
  else
    let current := (c.extra.lookup stat_name).getD 0
    {c with extra := assocSet c.extra stat_name (current + value)}

/-- `unequip_weapon(character)`.  Note the order of operations in the
source: the stat bonus is reversed *before* the inventory-capacity
check, so on the `InventoryFullError` path the returned record
carries the reversed stat.  A falsy equipped slot (absent key or
empty string) is the no-op path. -/
def unequip_weapon (c : Character) :
    Character × Except Err (Option String) :=
  match c.equipped_weapon with
  | none => (c, .ok none)
  | some weapon_id =>
    if weapon_id = "" then (c, .ok none)
    else
      match c.item_data.lookup weapon_id with
      | none => (c, .error .keyError)
      | some weapon_data =>
        match parse_item_effect weapon_data.effect with
        | .error e => (c, .error e)
        | .ok (stat, value) =>
          let c := apply_stat_effect c stat (-value)
          if get_inventory_space_remaining c = 0 then
            (c, .error .inventoryFull)
          else
            match add_item_to_inventory c weapon_id with
            | (c, .error e) => (c, .error e)
            | (c, .ok _) =>
              ({c with equipped_weapon := none}, .ok (some weapon_id))

/-- `unequip_armor(character)`; same shape as `unequip_weapon`, with
the same reverse-then-check ordering. -/
def unequip_armor (c : Character) :
    Character × Except Err (Option String) :=
  match c.equipped_armor with
  | none => (c, .ok none)
  | some armor_id =>
    if armor_id = "" then (c, .ok none)
    else
      match c.item_data.lookup armor_id with
      | none => (c, .error .keyError)
      | some armor_data =>
        match parse_item_effect armor_data.effect with
        | .error e => (c, .error e)
        | .ok (stat, value) =>
          let c := apply_stat_effect c stat (-value)
          if get_inventory_space_remaining c = 0 then
            (c, .error .inventoryFull)
          else
            match add_item_to_inventory c armor_id with
            | (c, .error e) => (c, .error e)
            | (c, .ok _) =>
              ({c with equipped_armor := none}, .ok (some armor_id))

-- ===========================================================================
-- combat_system.py
-- ===========================================================================

/-- Enemy record produced by `create_enemy`. -/
structure Enemy where
  name : String
  type : String
  health : Int
  max_health : Int
  strength : Int
  magic : Int
  xp_reward : Int
  gold_reward : Int
deriving DecidableEq, Repr

/-- Python `str.lower()` character by character (ASCII). -/
def pyLower (s : String) : String :=
  String.mk (s.data.map Char.toLower)

/-- `create_enemy(enemy_type)`: fixed templates keyed by the
lower-cased type string; unknown types raise `InvalidTargetError`. -/
def create_enemy (enemy_type : String) : Except Err Enemy :=
  let et := pyLower enemy_type
  if et = "goblin" then
    .ok ⟨"Goblin", "goblin", 50, 50, 8, 2, 25, 10⟩
  else if et = "orc" then
    .ok ⟨"Orc", "orc", 80, 80, 12, 5, 50, 25⟩
  else if et = "dragon" then
    .ok ⟨"Dragon", "dragon", 200, 200, 25, 15, 200, 100⟩
  else
    .error .invalidTarget

/-- `get_victory_rewards(enemy)` as an (xp, gold) pair. -/
def get_victory_rewards (e : Enemy) : Int × Int :=
  (e.xp_reward, e.gold_reward)

/-- Python `str.title()` restricted to its per-character behaviour:
the first alphabetic character of every alphabetic run is upper-cased
and the rest lower-cased. -/
def pyTitle (s : String) : String :=
  let step := fun (acc : List Char × Bool) (ch : Char) =>
    let (out, prevAlpha) := acc
    if ch.isAlpha then
      (out ++ [if prevAlpha then ch.toLower else ch.toUpper], true)
    else
      (out ++ [ch], false)
  String.mk (s.data.foldl step ([], false)).1

/-- `SimpleBattle.CLASS_COOLDOWNS`. -/
def CLASS_COOLDOWNS : List (String × Int) :=
  [("Warrior", 3), ("Mage", 3), ("Rogue", 4), ("Cleric", 3)]

/-- The transient `SimpleBattle` session state: the bound character
and enemy, plus `combat_active`, the turn counter, the cooldown
counter, and the `_battle_end_state == "escaped"` flag. -/
structure Battle where
  character : Character
  enemy : Enemy
  combat_active : Bool
  turn_counter : Int
  cooldown_remaining : Int
  escaped : Bool
deriving DecidableEq, Repr

/-- `SimpleBattle.calculate_damage(attacker, defender)`.  In the
source the attacker is always either `self.character` or
`self.enemy`; the boolean selects which, standing in for the
`attacker is self.character` identity test.  When the character
attacks while a `_last_ability == "mage_fireball"` marker is pending,
the magic stat is used and the marker popped, so the updated battle
state is returned along with the damage.  Python `//` is floor
division (`Int.fdiv`). -/
def calculate_damage (b : Battle) (attacker_is_character : Bool) :
    Battle × Int :=
  if attacker_is_character then
    if b.character.last_ability = some "mage_fireball" then
      let atk := b.character.magic
      let b := {b with character := {b.character with last_ability := none}}
      (b, max 1 (atk - Int.fdiv b.enemy.strength 4))
    else
      (b, max 1 (b.character.strength - Int.fdiv b.enemy.strength 4))
  else
    (b, max 1 (b.enemy.strength - Int.fdiv b.character.strength 4))

/-- `SimpleBattle.apply_damage` on the enemy: health floored at 0. -/
def apply_damage_enemy (b : Battle) (damage : Int) : Battle :=
  {b with enemy := {b.enemy with health := max 0 (b.enemy.health - damage)}}

/-- `SimpleBattle.apply_damage` on the character. -/
def apply_damage_character (b : Battle) (damage : Int) : Battle :=
  let c := {b.character with health := max 0 (b.character.health - damage)}
  {b with character := c}

/-- `warrior_power_strike(character, enemy)`. -/
def warrior_power_strike (c : Character) (e : Enemy) : Character × Enemy :=
  let dmg := max 1 (c.strength * 2 - Int.fdiv e.strength 4)
  (c, {e with health := max 0 (e.health - dmg)})

/-- `mage_fireball(character, enemy)`: deals magic damage and leaves
the `_last_ability` marker on the character. -/
def mage_fireball (c : Character) (e : Enemy) : Character × Enemy :=
  let dmg := max 1 (c.magic * 2 - Int.fdiv e.strength 4)
  let e := {e with health := max 0 (e.health - dmg)}
  ({c with last_ability := some "mage_fireball"}, e)

/-- `rogue_critical_strike(character, enemy)`; the 50% critical roll
is passed in as a boolean drawn from the random oracle. -/
def rogue_critical_strike (c : Character) (e : Enemy) (crit : Bool) :
    Character × Enemy :=
  if crit then
    let dmg := max 1 (c.strength * 3 - Int.fdiv e.strength 4)
    (c, {e with health := max 0 (e.health - dmg)})
  else
    let dmg := max 1 (c.strength - Int.fdiv e.strength 4)
    (c, {e with health := max 0 (e.health - dmg)})

/-- `cleric_heal(character)`: restores 30 HP capped at max_health. -/
def cleric_heal (c : Character) : Character :=
  {c with health := min c.max_health (c.health + 30)}

/-- `use_special_ability(character, enemy)`: dispatch on the
title-cased class name; anything else raises
`AbilityOnCooldownError`.  The rogue critical roll comes from the
oracle. -/
def use_special_ability (c : Character) (e : Enemy) (crit : Bool) :
    Except Err (Character × Enemy) :=
  let cls := pyTitle c.className
  if cls = "Warrior" then .ok (warrior_power_strike c e)
  else if cls = "Mage" then .ok (mage_fireball c e)
  else if cls = "Rogue" then .ok (rogue_critical_strike c e crit)
  else if cls = "Cleric" then .ok (cleric_heal c, e)
  else .error .abilityOnCooldown

/-- The nondeterministic choices one execution of `player_turn`
consumes.  `tryEscape` resolves the conjunction of the low-health
float comparison and the `random.random() < 0.25` roll (both are
outside the integer fragment, so the embedding quantifies over every
resolution); `escapeRoll` is the `random.random() < 0.5` roll inside
`attempt_escape`; `critRoll` is the rogue critical roll.  Every
concrete run of the source corresponds to some choice stream. -/
structure TurnChoice where
  tryEscape : Bool
  escapeRoll : Bool
  critRoll : Bool
deriving DecidableEq, Repr

/-- `SimpleBattle.player_turn`, with the random branches resolved by
`ch`.  A successful escape deactivates combat and sets the escape
flag; a failed attempt falls through to the attack logic.  With the
ability off cooldown the class special is tried, falling back to a
basic attack on `AbilityOnCooldownError`, and the cooldown is set
only when `self.char_class` is a key of `CLASS_COOLDOWNS`; otherwise
a basic attack is performed. -/
def player_turn (ch : TurnChoice) (b : Battle) : Battle :=
  if ch.tryEscape ∧ ch.escapeRoll then
    {b with combat_active := false, escaped := true}
  else
    if b.cooldown_remaining = 0 then
      match use_special_ability b.character b.enemy ch.critRoll with
      | .ok (c, e) =>
        let b := {b with character := c, enemy := e}
        match CLASS_COOLDOWNS.lookup b.character.className with
        | some cd => {b with cooldown_remaining := cd}
        | none => b
      | .error _ =>
        let (b, damage) := calculate_damage b true
        apply_damage_enemy b damage
    else
      let (b, damage) := calculate_damage b true
      apply_damage_enemy b damage

/-- `SimpleBattle.enemy_turn`: the enemy always basic-attacks. -/
def enemy_turn (b : Battle) : Battle :=
  let (b, damage) := calculate_damage b false
  apply_damage_character b damage

/-- `SimpleBattle.check_battle_end`: winner detection, deactivating
combat when a side is dead. -/
def check_battle_end (b : Battle) : Battle × Option String :=
  if b.enemy.health ≤ 0 then
    ({b with combat_active := false}, some "player")
  else if b.character.health ≤ 0 then
    ({b with combat_active := false}, some "enemy")
  else if b.escaped then
    (b, some "escaped")
  else
    (b, none)

/-- The `while self.combat_active` loop of `start_battle`: player
turn, end check, enemy turn, end check, cooldown decrement and turn
increment, indexed by a bound on the number of rounds; `none` means
the loop is still running after `fuel` rounds. -/
def battleLoop (oracle : Nat → TurnChoice) :
    Nat → Nat → Battle → Battle × Option String
  | 0, _, b => (b, none)
  | fuel + 1, i, b =>
    let b := player_turn (oracle i) b
    match check_battle_end b with
    | (b, some w) => (b, some w)
    | (b, none) =>
      let b := enemy_turn b
      match check_battle_end b with
      | (b, some w) => (b, some w)
      | (b, none) =>
        let b :=
          if b.cooldown_remaining > 0 then
            {b with cooldown_remaining := max 0 (b.cooldown_remaining - 1)}
          else b
        let b := {b with turn_counter := b.turn_counter + 1}
        battleLoop oracle fuel (i + 1) b

/-- Outcome of `start_battle`: the raised `CharacterDeadError`, a
completed battle with the result dict fields, or `timeout`, meaning
the combat loop has not finished within the observed rounds. -/
inductive BattleRes where
  | dead
  | done (b : Battle) (winner : String) (xp_gained gold_gained : Int)
  | timeout (b : Battle)
deriving DecidableEq, Repr

/-- `SimpleBattle.start_battle()`: raises when the character is
already dead, otherwise resets the cooldown, runs the loop, clears
`in_battle`, and reports the reward figures — the enemy's fixed
rewards on a player win and zero otherwise. -/
def start_battle (oracle : Nat → TurnChoice) (fuel : Nat) (b : Battle) :
    BattleRes :=
  if b.character.health ≤ 0 then .dead
  else
    let b := {b with cooldown_remaining := 0}
    match battleLoop oracle fuel 0 b with
    | (b, some w) =>
      let b := {b with combat_active := false}
      let b := {b with character := {b.character with in_battle := false}}
      if w = "player" then
        let rewards := get_victory_rewards b.enemy
        .done b "player" rewards.1 rewards.2
      else if w = "enemy" then .done b "enemy" 0 0
      else if w = "escaped" then .done b "escaped" 0 0
      else .done b "enemy" 0 0
    | (b, none) => .timeout b

-- ===========================================================================
-- Concrete fixtures
-- ===========================================================================

/-- A freshly created Warrior as produced by
`create_character("Hero", "Warrior")`. -/
def baseChar : Character where
  name := "Hero"
  className := "Warrior"
  level := 1
  experience := 0
  xp := 0
  gold := 0
  strength := 10
  defense := 8
  health := 100
  max_health := 100
  magic := 0
  mana := 0
  inventory := some []
  equipped_weapon := none
  equipped_armor := none
  active_quests := []
  completed_quests := []
  item_data := []
  in_battle := false
  last_ability := none
  extra := []

/-- A quest with no prerequisite and small rewards. -/
def q1 : Quest := ⟨50, 25, 1, "NONE"⟩

/-- One-quest catalog. -/
def cat1 : List (String × Quest) := [("q1", q1)]

/-- Character with `q1` active. -/
def c5Char : Character := {baseChar with active_quests := ["q1"]}

/-- Quest whose xp reward crosses the level-1 threshold. -/
def c1Quest : Quest := ⟨150, 10, 1, "NONE"⟩

/-- Catalog for the reward-granting scenario. -/
def c1Cat : List (String × Quest) := [("quest_a", c1Quest)]

/-- Character with `quest_a` active. -/
def c1Char : Character := {baseChar with active_quests := ["quest_a"]}

-- ===========================================================================
-- C10, C7: inventory capacity behaviour
-- ===========================================================================

/-- C10: for every character record that lacks an `inventory` key,
`add_item_to_inventory` returns True without raising and leaves the
record unmodified — the item is appended to a temporary list that is
discarded. -/
theorem add_item_missing_inventory_noop (c : Character) (item_id : String)
    (h : c.inventory = none) :
    add_item_to_inventory c item_id = (c, .ok true) := by
  simp [add_item_to_inventory, h, MAX_INVENTORY_SIZE]

/-- Witness for C10 at a concrete record with no inventory key. -/
theorem add_item_missing_inventory_noop_witness :
    ({baseChar with inventory := none} : Character).inventory = none ∧
    add_item_to_inventory {baseChar with inventory := none} "potion" =
      ({baseChar with inventory := none}, .ok true) :=
  ⟨rfl, add_item_missing_inventory_noop _ "potion" rfl⟩

/-- C7: with an inventory holding at most 20 items, `add` fails with
`InventoryFullError` at exactly 20 items leaving the inventory
unchanged, otherwise appends; the size never exceeds capacity 20. -/
theorem add_item_capacity_enforced (c : Character) (inv : List String)
    (item_id : String) (hi : c.inventory = some inv)
    (hle : inv.length ≤ 20) :
    (inv.length = 20 →
      add_item_to_inventory c item_id = (c, .error .inventoryFull)) ∧
    (inv.length < 20 →
      add_item_to_inventory c item_id =
        ({c with inventory := some (inv ++ [item_id])}, .ok true)) ∧
    ((add_item_to_inventory c item_id).1.inventory.getD []).length ≤ 20 := by
  refine ⟨?_, ?_, ?_⟩
  · intro h20
    simp [add_item_to_inventory, hi, MAX_INVENTORY_SIZE, h20]
  · intro hlt
    have hng : ¬ inv.length ≥ MAX_INVENTORY_SIZE := by
      simp only [MAX_INVENTORY_SIZE]
      omega
    simp [add_item_to_inventory, hi, hng]
  · by_cases hfull : inv.length ≥ MAX_INVENTORY_SIZE
    · have h20 : inv.length = 20 := by
        simp only [MAX_INVENTORY_SIZE] at hfull
        omega
      simp [add_item_to_inventory, hi, MAX_INVENTORY_SIZE, h20]
    · have hlt : inv.length < 20 := by
        simp only [MAX_INVENTORY_SIZE] at hfull
        omega
      simp [add_item_to_inventory, hi, hfull]
      omega

/-- A full 20-item inventory. -/
def rockInv : List String := List.replicate 20 "rock"

/-- Character whose inventory is at capacity. -/
def fullChar : Character := {baseChar with inventory := some rockInv}

/-- Witness for C7 on a 20-item inventory. -/
theorem add_item_capacity_enforced_witness :
    rockInv.length = 20 ∧
    add_item_to_inventory fullChar "gem" =
      (fullChar, .error .inventoryFull) := by
  have h := add_item_capacity_enforced fullChar rockInv "gem" rfl (by decide)
  exact ⟨by decide, h.1 (by decide)⟩

-- ===========================================================================
-- C5: error kind for accepting an already-active quest
-- ===========================================================================

/-- Counterexample for C5: with `q1` active (present in the catalog,
not completed), `accept_quest` raises `QuestRequirementsNotMetError`,
which is not the `QuestAlreadyActiveError` the claim names. -/
theorem accept_active_error_kind_cx :
    accept_quest c5Char "q1" cat1 =
      (c5Char, .error .questRequirementsNotMet) ∧
    Err.questRequirementsNotMet ≠ Err.questAlreadyActive := by
  decide

/-- C5 (amended): for a quest that exists in the catalog, is not yet
completed, and is currently active, `accept_quest` fails with
`QuestRequirementsNotMetError` and leaves the character unchanged. -/
theorem accept_active_raises_requirements_not_met (c : Character)
    (quest_id : String) (qd : List (String × Quest)) (quest : Quest)
    (hq : qd.lookup quest_id = some quest)
    (hnc : quest_id ∉ c.completed_quests)
    (ha : quest_id ∈ c.active_quests) :
    accept_quest c quest_id qd = (c, .error .questRequirementsNotMet) := by
  simp [accept_quest, hq, hnc, ha]

/-- Witness for the amended C5 at the concrete fixture. -/
theorem accept_active_raises_requirements_not_met_witness :
    accept_quest c5Char "q1" cat1 =
      (c5Char, .error .questRequirementsNotMet) :=
  accept_active_raises_requirements_not_met c5Char "q1" cat1 q1
    (by decide) (by decide) (by decide)

-- ===========================================================================
-- C1: complete_quest grants rewards directly, not via the engine
-- ===========================================================================

/-- Counterexample for C1: completing a 150-xp quest leaves
experience 150 at level 1, while `gain_experience` on the same amount
gives experience 50 at level 2; the claimed invariant
`experience < level * 100` fails after `complete_quest`. -/
theorem complete_quest_bypasses_progression_cx :
    (complete_quest c1Char "quest_a" c1Cat).1.experience = 150 ∧
    (complete_quest c1Char "quest_a" c1Cat).1.level = 1 ∧
    (gain_experience c1Char 150).1.experience = 50 ∧
    (gain_experience c1Char 150).1.level = 2 ∧
    (add_gold (gain_experience c1Char 150).1 10).1.gold = 10 ∧
    (complete_quest c1Char "quest_a" c1Cat).1.experience ≠
      (add_gold (gain_experience c1Char 150).1 10).1.experience ∧
    (complete_quest c1Char "quest_a" c1Cat).1.level ≠
      (add_gold (gain_experience c1Char 150).1 10).1.level ∧
    ¬ ((complete_quest c1Char "quest_a" c1Cat).1.experience <
        (complete_quest c1Char "quest_a" c1Cat).1.level * 100) := by
  decide

/-- C1 (amended): for a quest in the catalog that is active,
`complete_quest` moves it from active to completed and adds
`reward_xp` to `experience` and `reward_gold` to `gold` directly,
without invoking the progression engine; level, stats and the `xp`
field are untouched (the record update names the only changed
fields), so `experience < level * 100` need not hold afterwards. -/
theorem complete_quest_direct_reward (c : Character) (quest_id : String)
    (qd : List (String × Quest)) (quest : Quest)
    (hq : qd.lookup quest_id = some quest)
    (ha : quest_id ∈ c.active_quests) :
    complete_quest c quest_id qd =
      ({c with
          active_quests := c.active_quests.erase quest_id,
          completed_quests := c.completed_quests ++ [quest_id],
          experience := c.experience + quest.reward_xp,
          gold := c.gold + quest.reward_gold},
       .ok (quest.reward_xp, quest.reward_gold)) := by
  simp [complete_quest, hq, ha]

/-- Witness for the amended C1 at the concrete fixture. -/
theorem complete_quest_direct_reward_witness :
    complete_quest c1Char "quest_a" c1Cat =
      ({c1Char with
          active_quests := c1Char.active_quests.erase "quest_a",
          completed_quests := c1Char.completed_quests ++ ["quest_a"],
          experience := c1Char.experience + c1Quest.reward_xp,
          gold := c1Char.gold + c1Quest.reward_gold},
       .ok (c1Quest.reward_xp, c1Quest.reward_gold)) :=
  complete_quest_direct_reward c1Char "quest_a" c1Cat c1Quest
    (by decide) (by decide)

-- ===========================================================================
-- C4: return value of gain_experience
-- ===========================================================================

/-- Counterexample for C4: granting 100 xp to a fresh level-1
character causes a level-up (level becomes 2), yet the call returns
the integer 0 — not a true boolean; under Python truthiness 0 is
falsy even though a level-up occurred. -/
theorem gain_experience_returns_int_cx :
    (gain_experience baseChar 100).2 = .ok 0 ∧
    (gain_experience baseChar 100).1.level = 2 ∧
    baseChar.level = 1 := by
  decide

/-- C4 (amended): for every living character and amount,
`gain_experience` returns the leftover experience toward the next
level — the post-call `xp` field, also mirrored into `experience` —
as an integer, not a boolean level-up flag. -/
theorem gain_experience_returns_leftover_xp (c : Character) (amount : Int)
    (h : is_character_dead c = false) :
    (gain_experience c amount).2 = .ok (gain_experience c amount).1.xp ∧
    (gain_experience c amount).1.experience =
      (gain_experience c amount).1.xp := by
  simp [gain_experience, h]

/-- Witness for the amended C4 on a living character. -/
theorem gain_experience_returns_leftover_xp_witness :
    is_character_dead baseChar = false ∧
    (gain_experience baseChar 100).2 =
      .ok (gain_experience baseChar 100).1.xp ∧
    (gain_experience baseChar 100).1.experience =
      (gain_experience baseChar 100).1.xp :=
  ⟨by decide, gain_experience_returns_leftover_xp baseChar 100 (by decide)⟩

-- ===========================================================================
-- C2: unequip with a full inventory partially mutates the record
-- ===========================================================================

/-- A +5 strength weapon. -/
def swordItem : Item := ⟨"weapon", "strength:5", 30⟩

/-- A +3 defense armor. -/
def robeItem : Item := ⟨"armor", "defense:3", 20⟩

/-- Character with the sword equipped and a full inventory. -/
def c2WeaponChar : Character :=
  {baseChar with strength := 15, equipped_weapon := some "sword",
                 item_data := [("sword", swordItem)],
                 inventory := some rockInv}

/-- Character with the robe equipped and a full inventory. -/
def c2ArmorChar : Character :=
  {baseChar with defense := 8, equipped_armor := some "robe",
                 item_data := [("robe", robeItem)],
                 inventory := some rockInv}

/-- C2: when unequip of a weapon or armor slot fails with
`InventoryFullError`, the item stays equipped and the inventory is
unchanged, but the stat bonus HAS already been reversed — the record
is partially mutated on the failure path (strength 15 → 10, defense
8 → 5 here), contradicting the claimed atomicity. -/
theorem unequip_partial_mutation_on_full_inventory :
    (unequip_weapon c2WeaponChar).2 = .error .inventoryFull ∧
    (unequip_weapon c2WeaponChar).1.equipped_weapon = some "sword" ∧
    (unequip_weapon c2WeaponChar).1.inventory = some rockInv ∧
    c2WeaponChar.strength = 15 ∧
    (unequip_weapon c2WeaponChar).1.strength = 10 ∧
    (unequip_weapon c2WeaponChar).1 ≠ c2WeaponChar ∧
    (unequip_armor c2ArmorChar).2 = .error .inventoryFull ∧
    (unequip_armor c2ArmorChar).1.equipped_armor = some "robe" ∧
    c2ArmorChar.defense = 8 ∧
    (unequip_armor c2ArmorChar).1.defense = 5 ∧
    (unequip_armor c2ArmorChar).1 ≠ c2ArmorChar := by
  decide

-- ===========================================================================
-- C3: the prerequisite-chain walk on a cyclic catalog
-- ===========================================================================

/-- Quest whose prerequisite is `quest_b`. -/
def qa : Quest := ⟨10, 5, 1, "quest_b"⟩

/-- Quest whose prerequisite is `quest_a`, closing the cycle. -/
def qb : Quest := ⟨10, 5, 1, "quest_a"⟩

/-- A catalog containing a two-quest prerequisite cycle. -/
def cycCat : List (String × Quest) := [("quest_a", qa), ("quest_b", qb)]

/-- C3: on the cyclic catalog, `get_quest_prerequisite_chain` never
terminates: for every bound on the number of loop iterations the
`while True` loop is still running — it neither returns a chain nor
raises. -/
theorem prerequisite_chain_cycle_never_terminates :
    ∀ fuel : Nat,
      get_quest_prerequisite_chain "quest_a" cycCat fuel = .timeout := by
  have key : ∀ fuel : Nat, ∀ chain : List String,
      chainLoop cycCat fuel "quest_a" chain = .timeout ∧
      chainLoop cycCat fuel "quest_b" chain = .timeout := by
    intro fuel
    induction fuel with
    | zero => intro chain; exact ⟨rfl, rfl⟩
    | succ n ih =>
      intro chain
      constructor
      · show chainLoop cycCat (n + 1) "quest_a" chain = .timeout
        have hla : cycCat.lookup "quest_a" = some qa := by decide
        have hne : ¬ qa.prerequisite = "NONE" := by decide
        simp only [chainLoop, hla, hne, if_false]
        exact (ih (chain ++ ["quest_a"])).2
      · show chainLoop cycCat (n + 1) "quest_b" chain = .timeout
        have hlb : cycCat.lookup "quest_b" = some qb := by decide
        have hne : ¬ qb.prerequisite = "NONE" := by decide
        simp only [chainLoop, hlb, hne, if_false]
        exact (ih (chain ++ ["quest_b"])).1
  intro fuel
  have hla : cycCat.lookup "quest_a" = some qa := by decide
  simp only [get_quest_prerequisite_chain, hla]
  exact (key fuel []).1

-- ===========================================================================
-- C6: disjointness of active and completed quest lists
-- ===========================================================================

/-- The spec's disjointness invariant
`active_quests ∩ completed_quests = ∅` on id lists. -/
def disjointQ (l₁ l₂ : List String) : Prop := ∀ a ∈ l₁, a ∉ l₂

instance (l₁ l₂ : List String) : Decidable (disjointQ l₁ l₂) :=
  List.decidableBAll _ l₁

/-- Character whose active list holds a duplicated quest id; its
active and completed lists are disjoint. -/
def c6DupChar : Character := {baseChar with active_quests := ["q1", "q1"]}

/-- Counterexample for C6: the lists of `c6DupChar` are disjoint, but
after `complete_quest` (which removes only the first occurrence and
appends to completed) they are not: `q1` is both active and
completed. -/
theorem complete_quest_duplicate_active_cx :
    disjointQ c6DupChar.active_quests c6DupChar.completed_quests ∧
    ¬ disjointQ (complete_quest c6DupChar "q1" cat1).1.active_quests
        (complete_quest c6DupChar "q1" cat1).1.completed_quests := by
  decide

/-- C6 (amended): when additionally `active_quests` has no
duplicates, each of accept/complete/abandon — whether it succeeds or
fails — leaves `active_quests` and `completed_quests` disjoint, and
`complete_quest` can succeed only on a quest that is active
beforehand. -/
theorem quest_ops_preserve_disjointness (c : Character) (quest_id : String)
    (qd : List (String × Quest))
    (hd : disjointQ c.active_quests c.completed_quests)
    (hn : c.active_quests.Nodup) :
    disjointQ (accept_quest c quest_id qd).1.active_quests
      (accept_quest c quest_id qd).1.completed_quests ∧
    disjointQ (complete_quest c quest_id qd).1.active_quests
      (complete_quest c quest_id qd).1.completed_quests ∧
    disjointQ (abandon_quest c quest_id).1.active_quests
      (abandon_quest c quest_id).1.completed_quests ∧
    (∀ c' r, complete_quest c quest_id qd = (c', .ok r) →
      quest_id ∈ c.active_quests) := by
  refine ⟨?_, ?_, ?_, ?_⟩
  · unfold accept_quest
    cases hq : qd.lookup quest_id with
    | none => exact hd
    | some quest =>
      dsimp only
      split_ifs with h1 h2 h3 h4
      · exact hd
      · exact hd
      · exact hd
      · exact hd
      · intro a ha
        rcases List.mem_append.mp ha with hA | hE
        · exact hd a hA
        · rcases List.mem_singleton.mp hE with rfl
          exact h1
  · unfold complete_quest
    cases hq : qd.lookup quest_id with
    | none => exact hd
    | some quest =>
      dsimp only
      split_ifs with h1
      · intro a ha hmem
        have hA : a ∈ c.active_quests := List.mem_of_mem_erase ha
        have hane : a ≠ quest_id := by
          rintro rfl
          exact hn.not_mem_erase ha
        rcases List.mem_append.mp hmem with hC | hQ
        · exact hd a hA hC
        · exact hane (List.mem_singleton.mp hQ)
      · exact hd
  · unfold abandon_quest
    split_ifs with h1
    · intro a ha
      exact hd a (List.mem_of_mem_erase ha)
    · exact hd
  · intro c' r heq
    unfold complete_quest at heq
    cases hq : qd.lookup quest_id with
    | none =>
      rw [hq] at heq
      simp at heq
    | some quest =>
      rw [hq] at heq
      dsimp only at heq
      split_ifs at heq with h1
      · exact h1
      · simp at heq

/-- Character with disjoint, duplicate-free quest lists for the C6
witness. -/
def c6W : Character :=
  {baseChar with active_quests := ["q1"], completed_quests := ["q0"]}

/-- Witness for the amended C6 at a concrete character. -/
theorem quest_ops_preserve_disjointness_witness :
    disjointQ (accept_quest c6W "q1" cat1).1.active_quests
      (accept_quest c6W "q1" cat1).1.completed_quests ∧
    disjointQ (complete_quest c6W "q1" cat1).1.active_quests
      (complete_quest c6W "q1" cat1).1.completed_quests ∧
    disjointQ (abandon_quest c6W "q1").1.active_quests
      (abandon_quest c6W "q1").1.completed_quests ∧
    (∀ c' r, complete_quest c6W "q1" cat1 = (c', .ok r) →
      "q1" ∈ c6W.active_quests) :=
  quest_ops_preserve_disjointness c6W "q1" cat1 (by decide) (by decide)

-- ===========================================================================
-- C8: the basic attack damage formula
-- ===========================================================================

/-- The goblin template (the value `create_enemy "goblin"` builds). -/
def goblinE : Enemy := ⟨"Goblin", "goblin", 50, 50, 8, 2, 25, 10⟩

/-- A mage whose previous action was Fireball, leaving the
`_last_ability` marker set. -/
def flaggedMage : Character :=
  {baseChar with className := "Mage", strength := 15, magic := 40,
                 last_ability := some "mage_fireball"}

/-- Battle state in which the mage's ability is on cooldown, so the
next player action is a basic attack. -/
def c8FlagBattle : Battle := ⟨flaggedMage, goblinE, true, 1, 3, false⟩

/-- Counterexample for C8: with a pending `_last_ability ==
"mage_fireball"` marker, the basic attack of a strength-15, magic-40
attacker against a strength-8 defender deals 38 damage, not
`max(1, 15 - 8 // 4) = 13`; `player_turn` on cooldown indeed takes
this basic-attack path, dropping the goblin from 50 to 12 health. -/
theorem basic_attack_fireball_flag_cx :
    (calculate_damage c8FlagBattle true).2 = 38 ∧
    max 1 (c8FlagBattle.character.strength -
      Int.fdiv c8FlagBattle.enemy.strength 4) = 13 ∧
    (38 : Int) ≠ 13 ∧
    (player_turn ⟨false, false, false⟩ c8FlagBattle).enemy.health = 12 := by
  decide

/-- A warrior with strength 15, in battle against the goblin. -/
def warriorGoblin : Battle :=
  ⟨{baseChar with strength := 15}, goblinE, true, 1, 0, false⟩

/-- C8 (amended): basic attack damage equals
`max(1, attacker.strength - defender.strength // 4)` whenever the
attacker is not a character carrying a pending mage-fireball marker
(enemy attackers never carry one); in particular the strength-15
Warrior hits the strength-8 Goblin for 13, taking it from 50 to 37
health, matching the output of `create_enemy "goblin"`. -/
theorem basic_attack_damage_formula :
    (∀ b : Battle, b.character.last_ability ≠ some "mage_fireball" →
      (calculate_damage b true).2 =
        max 1 (b.character.strength - Int.fdiv b.enemy.strength 4)) ∧
    (∀ b : Battle, (calculate_damage b false).2 =
      max 1 (b.enemy.strength - Int.fdiv b.character.strength 4)) ∧
    create_enemy "goblin" = .ok goblinE ∧
    (calculate_damage warriorGoblin true).2 = 13 ∧
    (apply_damage_enemy warriorGoblin
      (calculate_damage warriorGoblin true).2).enemy.health = 37 := by
  refine ⟨?_, ?_, by decide, by decide, by decide⟩
  · intro b h
    simp [calculate_damage, h]
  · intro b
    simp [calculate_damage]

/-- Witness for C8 applying the formula at the Warrior-vs-Goblin
battle. -/
theorem basic_attack_damage_formula_witness :
    (calculate_damage warriorGoblin true).2 =
      max 1 (warriorGoblin.character.strength -
        Int.fdiv warriorGoblin.enemy.strength 4) :=
  basic_attack_damage_formula.1 warriorGoblin (by decide)

-- ===========================================================================
-- C9: the combat resolver never touches gold or xp
-- ===========================================================================

/-- The fields the combat resolver must leave alone: the character's
gold and experience counters and the enemy's reward figures. -/
def battleFrame (b b' : Battle) : Prop :=
  b'.character.gold = b.character.gold ∧
  b'.character.experience = b.character.experience ∧
  b'.character.xp = b.character.xp ∧
  b'.enemy.xp_reward = b.enemy.xp_reward ∧
  b'.enemy.gold_reward = b.enemy.gold_reward

lemma battleFrame_refl (b : Battle) : battleFrame b b :=
  ⟨rfl, rfl, rfl, rfl, rfl⟩

lemma battleFrame_trans {a b c : Battle} (h₁ : battleFrame a b)
    (h₂ : battleFrame b c) : battleFrame a c :=
  ⟨h₂.1.trans h₁.1, h₂.2.1.trans h₁.2.1, h₂.2.2.1.trans h₁.2.2.1,
   h₂.2.2.2.1.trans h₁.2.2.2.1, h₂.2.2.2.2.trans h₁.2.2.2.2⟩

lemma calculate_damage_frame (b : Battle) (aic : Bool) :
    battleFrame b (calculate_damage b aic).1 := by
  unfold calculate_damage
  split_ifs <;> exact ⟨rfl, rfl, rfl, rfl, rfl⟩

lemma apply_damage_enemy_frame (b : Battle) (d : Int) :
    battleFrame b (apply_damage_enemy b d) :=
  ⟨rfl, rfl, rfl, rfl, rfl⟩

lemma apply_damage_character_frame (b : Battle) (d : Int) :
    battleFrame b (apply_damage_character b d) :=
  ⟨rfl, rfl, rfl, rfl, rfl⟩

lemma use_special_ability_frame (c : Character) (e : Enemy) (crit : Bool)
    (c' : Character) (e' : Enemy)
    (h : use_special_ability c e crit = .ok (c', e')) :
    c'.gold = c.gold ∧ c'.experience = c.experience ∧ c'.xp = c.xp ∧
    e'.xp_reward = e.xp_reward ∧ e'.gold_reward = e.gold_reward := by
  unfold use_special_ability at h
  dsimp only at h
  split_ifs at h with hw hm hr hc
  · unfold warrior_power_strike at h
    injection h with h
    injection h with h1 h2
    subst h1
    subst h2
    exact ⟨rfl, rfl, rfl, rfl, rfl⟩
  · unfold mage_fireball at h
    injection h with h
    injection h with h1 h2
    subst h1
    subst h2
    exact ⟨rfl, rfl, rfl, rfl, rfl⟩
  · unfold rogue_critical_strike at h
    by_cases hcr : crit
    · rw [if_pos hcr] at h
      injection h with h
      injection h with h1 h2
      subst h1
      subst h2
      exact ⟨rfl, rfl, rfl, rfl, rfl⟩
    · rw [if_neg hcr] at h
      injection h with h
      injection h with h1 h2
      subst h1
      subst h2
      exact ⟨rfl, rfl, rfl, rfl, rfl⟩
  · unfold cleric_heal at h
    injection h with h
    injection h with h1 h2
    subst h1
    subst h2
    exact ⟨rfl, rfl, rfl, rfl, rfl⟩

lemma player_turn_frame (ch : TurnChoice) (b : Battle) :
    battleFrame b (player_turn ch b) := by
  unfold player_turn
  split_ifs with hesc hcd
  · exact ⟨rfl, rfl, rfl, rfl, rfl⟩
  · cases hu : use_special_ability b.character b.enemy ch.critRoll with
    | ok pr =>
      obtain ⟨c', e'⟩ := pr
      have hf := use_special_ability_frame b.character b.enemy ch.critRoll
        c' e' hu
      dsimp only
      cases hcl : CLASS_COOLDOWNS.lookup c'.className with
      | some cd =>
        exact ⟨hf.1, hf.2.1, hf.2.2.1, hf.2.2.2.1, hf.2.2.2.2⟩
      | none =>
        exact ⟨hf.1, hf.2.1, hf.2.2.1, hf.2.2.2.1, hf.2.2.2.2⟩
    | error err =>
      dsimp only
      rcases hcd2 : calculate_damage b true with ⟨b1, dmg⟩
      have hf1 : battleFrame b b1 := by
        have hcf := calculate_damage_frame b true
        rw [hcd2] at hcf
        exact hcf
      exact battleFrame_trans hf1 (apply_damage_enemy_frame b1 dmg)
  · rcases hcd2 : calculate_damage b true with ⟨b1, dmg⟩
    have hf1 : battleFrame b b1 := by
      have hcf := calculate_damage_frame b true
      rw [hcd2] at hcf
      exact hcf
    exact battleFrame_trans hf1 (apply_damage_enemy_frame b1 dmg)

lemma enemy_turn_frame (b : Battle) : battleFrame b (enemy_turn b) := by
  unfold enemy_turn
  rcases hcd : calculate_damage b false with ⟨b1, dmg⟩
  have hf1 : battleFrame b b1 := by
    have hcf := calculate_damage_frame b false
    rw [hcd] at hcf
    exact hcf
  exact battleFrame_trans hf1 (apply_damage_character_frame b1 dmg)

lemma check_battle_end_frame (b : Battle) :
    battleFrame b (check_battle_end b).1 := by
  unfold check_battle_end
  split_ifs <;> exact ⟨rfl, rfl, rfl, rfl, rfl⟩

lemma battleLoop_frame (oracle : Nat → TurnChoice) :
    ∀ (fuel i : Nat) (b : Battle),
      battleFrame b (battleLoop oracle fuel i b).1 := by
  intro fuel
  induction fuel with
  | zero => intro i b; exact battleFrame_refl b
  | succ n ih =>
    intro i b
    have h1 : battleFrame b (player_turn (oracle i) b) :=
      player_turn_frame (oracle i) b
    simp only [battleLoop]
    rcases hc1 : check_battle_end (player_turn (oracle i) b) with ⟨b1, w1⟩
    have hf1 : battleFrame b b1 := by
      have hcf := check_battle_end_frame (player_turn (oracle i) b)
      rw [hc1] at hcf
      exact battleFrame_trans h1 hcf
    cases w1 with
    | some w => exact hf1
    | none =>
      dsimp only
      have h2 : battleFrame b1 (enemy_turn b1) := enemy_turn_frame b1
      rcases hc2 : check_battle_end (enemy_turn b1) with ⟨b2, w2⟩
      have hf2 : battleFrame b b2 := by
        have hcf := check_battle_end_frame (enemy_turn b1)
        rw [hc2] at hcf
        exact battleFrame_trans hf1 (battleFrame_trans h2 hcf)
      cases w2 with
      | some w => exact hf2
      | none =>
        dsimp only
        split_ifs with hcool
        · exact battleFrame_trans
            (battleFrame_trans hf2 ⟨rfl, rfl, rfl, rfl, rfl⟩)
            (ih (i + 1) _)
        · exact battleFrame_trans
            (battleFrame_trans hf2 ⟨rfl, rfl, rfl, rfl, rfl⟩)
            (ih (i + 1) _)

/-- C9: for every living character, every random resolution and every
observed number of rounds, a completed `start_battle` leaves the
character's `gold`, `experience` and `xp` fields exactly as they
were; the reported reward figures are the enemy's fixed
`xp_reward`/`gold_reward` on a player win and zero on any other
outcome — the resolver never mutates gold or xp. -/
theorem start_battle_preserves_gold_xp (oracle : Nat → TurnChoice)
    (fuel : Nat) (b b' : Battle) (winner : String) (xp gold : Int)
    (h : 0 < b.character.health)
    (hr : start_battle oracle fuel b = .done b' winner xp gold) :
    b'.character.gold = b.character.gold ∧
    b'.character.experience = b.character.experience ∧
    b'.character.xp = b.character.xp ∧
    (winner = "player" →
      xp = b.enemy.xp_reward ∧ gold = b.enemy.gold_reward) ∧
    (winner ≠ "player" → xp = 0 ∧ gold = 0) := by
  unfold start_battle at hr
  rw [if_neg (by omega : ¬ b.character.health ≤ 0)] at hr
  dsimp only at hr
  rcases hL : battleLoop oracle fuel 0 {b with cooldown_remaining := 0}
    with ⟨bL, wo⟩
  rw [hL] at hr
  have hfL : battleFrame b bL := by
    have hlf := battleLoop_frame oracle fuel 0 {b with cooldown_remaining := 0}
    rw [hL] at hlf
    exact battleFrame_trans ⟨rfl, rfl, rfl, rfl, rfl⟩ hlf
  cases wo with
  | none => simp at hr
  | some w =>
    dsimp only at hr
    split_ifs at hr with hw1 hw2 hw3
    · injection hr with hb hwin hxp hgold
      subst hb
      subst hwin
      subst hxp
      subst hgold
      refine ⟨hfL.1, hfL.2.1, hfL.2.2.1, fun _ => ?_, fun hne => ?_⟩
      · exact ⟨hfL.2.2.2.1, hfL.2.2.2.2⟩
      · exact absurd rfl hne
    · injection hr with hb hwin hxp hgold
      subst hb
      subst hwin
      subst hxp
      subst hgold
      exact ⟨hfL.1, hfL.2.1, hfL.2.2.1,
        fun habs => absurd habs (by decide), fun _ => ⟨rfl, rfl⟩⟩
    · injection hr with hb hwin hxp hgold
      subst hb
      subst hwin
      subst hxp
      subst hgold
      exact ⟨hfL.1, hfL.2.1, hfL.2.2.1,
        fun habs => absurd habs (by decide), fun _ => ⟨rfl, rfl⟩⟩
    · injection hr with hb hwin hxp hgold
      subst hb
      subst hwin
      subst hxp
      subst hgold
      exact ⟨hfL.1, hfL.2.1, hfL.2.2.1,
        fun habs => absurd habs (by decide), fun _ => ⟨rfl, rfl⟩⟩

/-- The decision oracle that never tries to escape and never crits. -/
def constOracle : Nat → TurnChoice := fun _ => ⟨false, false, false⟩

/-- The final battle state of the concrete Warrior-vs-Goblin run used
as the C9 witness: the goblin dies on round 3, the warrior has taken
two 5-point hits. -/
def bFinal : Battle where
  character := {baseChar with strength := 15, health := 90}
  enemy := {goblinE with health := 0}
  combat_active := false
  turn_counter := 3
  cooldown_remaining := 1
  escaped := false

/-- Witness for C9 on the concrete three-round battle. -/
theorem start_battle_preserves_gold_xp_witness :
    bFinal.character.gold = warriorGoblin.character.gold ∧
    bFinal.character.experience = warriorGoblin.character.experience ∧
    bFinal.character.xp = warriorGoblin.character.xp ∧
    (25 : Int) = warriorGoblin.enemy.xp_reward ∧
    (10 : Int) = warriorGoblin.enemy.gold_reward := by
  have hR : start_battle constOracle 3 warriorGoblin =
      .done bFinal "player" 25 10 := by decide
  have h := start_battle_preserves_gold_xp constOracle 3 warriorGoblin
    bFinal "player" 25 10 (by decide) hR
  exact ⟨h.1, h.2.1, h.2.2.1, (h.2.2.2.1 rfl).1, (h.2.2.2.1 rfl).2⟩

end QuestChronicles
